import Mathlib

/-!
Verification of the Ledmacher backend (`src/backend/backend.py`) against its
natural-language specification.

The backend is a small bottle application with three route handlers:

* `build_firmware`   (`POST /firmware`): renders the JSON build configuration
  into C header text, pipes it to the external `./buildme.sh` command, and on
  success returns the hash the command printed on stdout, after writing the
  original configuration as `config.json` into the build directory (when that
  directory exists).
* `get_firmware_info` (`GET /firmware/<hash>`): returns creation date, binary
  size, SHA-1 checksum of the binary, and the original configuration.
* `download_firmware` (`GET /firmware/<hash>/bin`): serves the binary file.

The filesystem under `./build/` is modelled as an association list from
identifier (directory name) to directory contents; the external build command
is opaque, so its observable outputs (stdout text, exit status) and its effect
on the store (the directory and binary it may have created) are universally
quantified parameters of the handler model.

`hashlib.sha1(...).hexdigest()` is modelled by a full executable SHA-1
implementation over byte lists (`sha1hex`), with 32-bit words represented as
`Nat` reduced `% 2^32`.
-/

set_option maxRecDepth 40000

/-! ## SHA-1 (model of `hashlib.sha1(data).hexdigest()`) -/

/-- Left-rotation of a 32-bit word (value `< 2^32`) by `n` bits. -/
def rotl32 (n x : Nat) : Nat :=
  ((x <<< n) % 4294967296) ||| (x >>> (32 - n))

/-- Merkle–Damgård padding: append `0x80`, zeros to 56 mod 64, then the
message bit length as 8 big-endian bytes. -/
def sha1pad (msg : List Nat) : List Nat :=
  let ml := msg.length * 8
  msg ++ 128 :: List.replicate ((64 + 55 - msg.length % 64) % 64) 0
      ++ [(ml >>> 56) % 256, (ml >>> 48) % 256, (ml >>> 40) % 256, (ml >>> 32) % 256,
          (ml >>> 24) % 256, (ml >>> 16) % 256, (ml >>> 8) % 256, ml % 256]

/-- Group a byte list into big-endian 32-bit words. -/
def toWords : List Nat → List Nat
  | a :: b :: c :: d :: rest => (((a * 256 + b) * 256 + c) * 256 + d) :: toWords rest
  | _ => []

/-- Extend the 16 chunk words to 80; the word list is kept reversed (most
recent word first), so `w[i-3]` is at index 2, `w[i-16]` at index 15. -/
def extendW : Nat → List Nat → List Nat
  | 0, rws => rws
  | n + 1, rws =>
      extendW n
        (rotl32 1 (rws.getD 2 0 ^^^ rws.getD 7 0 ^^^ rws.getD 13 0 ^^^ rws.getD 15 0) :: rws)

/-- Round function `f` of SHA-1 for round index `i`. -/
def sha1f (i b c d : Nat) : Nat :=
  if i < 20 then (b &&& c) ||| ((b ^^^ 4294967295) &&& d)
  else if i < 40 then b ^^^ c ^^^ d
  else if i < 60 then (b &&& c) ||| (b &&& d) ||| (c &&& d)
  else b ^^^ c ^^^ d

/-- Round constant `k` of SHA-1 for round index `i`. -/
def sha1k (i : Nat) : Nat :=
  if i < 20 then 0x5A827999
  else if i < 40 then 0x6ED9EBA1
  else if i < 60 then 0x8F1BBCDC
  else 0xCA62C1D6

/-- The 80 compression rounds, consuming the extended word list. -/
def sha1rounds : Nat → List Nat → Nat × Nat × Nat × Nat × Nat → Nat × Nat × Nat × Nat × Nat
  | _, [], st => st
  | i, w :: ws, (a, b, c, d, e) =>
      sha1rounds (i + 1) ws
        ((rotl32 5 a + sha1f i b c d + e + sha1k i + w) % 4294967296, a, rotl32 30 b, c, d)

/-- Process one 64-byte chunk, updating the running hash state. -/
def sha1chunk (chunk : List Nat) (h : Nat × Nat × Nat × Nat × Nat) : Nat × Nat × Nat × Nat × Nat :=
  let w := (extendW 64 (toWords chunk).reverse).reverse
  match sha1rounds 0 w h, h with
  | (a, b, c, d, e), (h0, h1, h2, h3, h4) =>
      ((h0 + a) % 4294967296, (h1 + b) % 4294967296, (h2 + c) % 4294967296,
       (h3 + d) % 4294967296, (h4 + e) % 4294967296)

/-- Process `fuel` chunks of 64 bytes each. -/
def sha1chunks : Nat → List Nat → Nat × Nat × Nat × Nat × Nat → Nat × Nat × Nat × Nat × Nat
  | 0, _, h => h
  | n + 1, msg, h => sha1chunks n (msg.drop 64) (sha1chunk (msg.take 64) h)

/-- SHA-1 digest of a byte list, as five 32-bit words. -/
def sha1 (msg : List Nat) : Nat × Nat × Nat × Nat × Nat :=
  let padded := sha1pad msg
  sha1chunks (padded.length / 64) padded
    (0x67452301, 0xEFCDAB89, 0x98BADCFE, 0x10325476, 0xC3D2E1F0)

/-- Lower-case hexadecimal digit. -/
def hexDigit (n : Nat) : Char :=
  if n < 10 then Char.ofNat (48 + n) else Char.ofNat (87 + n)

/-- A 32-bit word as exactly eight lower-case hex characters. -/
def toHex8 (x : Nat) : String :=
  String.mk [hexDigit ((x >>> 28) % 16), hexDigit ((x >>> 24) % 16),
             hexDigit ((x >>> 20) % 16), hexDigit ((x >>> 16) % 16),
             hexDigit ((x >>> 12) % 16), hexDigit ((x >>> 8) % 16),
             hexDigit ((x >>> 4) % 16), hexDigit (x % 16)]

/-- `hashlib.sha1(msg).hexdigest()`: the 40-character hex digest. -/
def sha1hex (msg : List Nat) : String :=
  match sha1 msg with
  | (a, b, c, d, e) => toHex8 a ++ toHex8 b ++ toHex8 c ++ toHex8 d ++ toHex8 e

/-- Sanity check of the SHA-1 model against the standard empty-message vector. -/
example : sha1hex [] = "da39a3ee5e6b4b0d3255bfef95601890afd80709" := by decide

example : sha1hex [104, 105] = "c22b5f9178342609428d6f51b2c5af4c0bde6a42" := by decide

example : sha1hex [1, 2, 3] = "7037807198c22a7d2b0807371d763779a84fdfcf" := by decide

/-! ## Data model

`BuildConfig` is the JSON body of `POST /firmware`: four integer scalars and
an ordered list of color triples. Python JSON integers are modelled as `Int`
(`Nat` would silently add a range restriction the code does not perform). -/

/-- One entry of the `colors` array of the request body. -/
structure Color where
  r : Int
  g : Int
  b : Int
deriving DecidableEq

/-- The structured configuration submitted by the client. -/
structure BuildConfig where
  num_leds : Int
  wait_color : Int
  wait_gradient : Int
  gradient_steps : Int
  colors : List Color
deriving DecidableEq

/-- Contents of one `./build/<hash>/` directory: the optional `config.json`
(its parsed content paired with its creation time, epoch seconds) and the
optional `ledmacher.bin` byte content. -/
structure ArtifactDir where
  config : Option (BuildConfig × Nat)
  binary : Option (List Nat)
deriving DecidableEq

/-- The `./build/` tree: association list from directory name (the firmware
hash) to directory contents. Lookups find the first matching entry. -/
abbrev Store := List (String × ArtifactDir)

/-- Directory lookup, the model of path resolution under `./build/`. -/
def findDir : Store → String → Option ArtifactDir
  | [], _ => none
  | (k, d) :: rest, h => if h = k then some d else findDir rest h

/-- `os.path.isdir('./build/<hash>')`. -/
def isdir (st : Store) (h : String) : Bool :=
  (findDir st h).isSome

/-- Content of `./build/<hash>/config.json` with its ctime, when present. -/
def configOf (st : Store) (h : String) : Option (BuildConfig × Nat) :=
  (findDir st h).bind (·.config)

/-- Content of `./build/<hash>/ledmacher.bin`, when present. -/
def binaryOf (st : Store) (h : String) : Option (List Nat) :=
  (findDir st h).bind (·.binary)

/-! ## Configuration rendering (`out_data` in `build_firmware`)

The handler renders the JSON body into C header text: a `#define` block built
with `str.format` from the four scalars, then a `struct cRGB colors[]`
initializer with one line per color, each component formatted with `{r:3}`
(minimum width 3, left-padded with spaces). Literal braces of the C text are
written `\x7b`/`\x7d`. -/

/-- Python `'{:3}'.format(n)`: pad the decimal rendering on the left with
spaces to a minimum width of 3. -/
def pad3 (s : String) : String :=
  if s.length < 3 then String.mk (List.replicate (3 - s.length) ' ') ++ s else s

/-- The `#define` block (the triple-quoted format string of the source,
including its leading and trailing blank lines). -/
def defineBlock (cfg : BuildConfig) : String :=
  "\n#define NUM_LEDS " ++ toString cfg.num_leds ++
  "\n\n#define WAIT_COLOR_MS " ++ toString cfg.wait_color ++
  "\n#define WAIT_GRADIENT_MS " ++ toString cfg.wait_gradient ++
  "\n#define GRADIENT_STEPS " ++ toString cfg.gradient_steps ++ "\n\n"

/-- One line of the color array: `    \x7b .r = ..., .g = ..., .b = ... \x7d,`. -/
def colorEntry (c : Color) : String :=
  "    \x7b .r = " ++ pad3 (toString c.r) ++ ", .g = " ++ pad3 (toString c.g) ++
  ", .b = " ++ pad3 (toString c.b) ++ " \x7d,\n"

/-- The full rendered configuration text, accumulated exactly as the source
does: the define block, then the array header, then a `for` loop appending
one entry per color, then the closing line. -/
def render_config (cfg : BuildConfig) : String :=
  (cfg.colors.foldl (fun acc c => acc ++ colorEntry c)
    (defineBlock cfg ++ "struct cRGB colors[] = \x7b\n")) ++ "\x7d;\n"

/-! ## `POST /firmware` (`build_firmware`)

The subprocess call is opaque: its decoded stdout `out` and its exit status
`returncode` are parameters, as is the current time `now` (used as the ctime
of a written `config.json`). Notes kept from the source:

* `firmware_hash = out.decode('utf-8')` — the output is **not** stripped of
  whitespace; the `firmware_hash is None` disjunct of the abort guard is
  vacuous since `decode` returns a string.
* `config.json` is written (only when the build directory exists) **before**
  the return code is inspected.
* `time.sleep(1)` before the success response has no observable effect here.
-/

/-- A bottle handler response: either the JSON `dict(hash=...)` or an
`abort(code, msg)`. -/
inductive BuildResponse
  | ok (hash : String)
  | error (code : Nat) (msg : String)
deriving DecidableEq

/-- The guarded `config.json` write of `build_firmware` (the Artifact Store's
`writeMetadata`): writes the configuration into every directory entry named
`h` when one exists, and does nothing otherwise. -/
def writeMetadata (st : Store) (h : String) (cfg : BuildConfig) (now : Nat) : Store :=
  if isdir st h then
    st.map fun p => if p.1 = h then (p.1, { p.2 with config := some (cfg, now) }) else p
  else st

/-- The `POST /firmware` handler after the subprocess has exited. -/
def build_firmware (st : Store) (json_data : BuildConfig) (out : String)
    (returncode : Int) (now : Nat) : Store × BuildResponse :=
  let firmware_hash := out
  if firmware_hash = "" then
    (st, .error 500 "Yeah, this didn't work")
  else
    let st1 := writeMetadata st firmware_hash json_data now
    if returncode = 0 then
      (st1, .ok firmware_hash)
    else
      (st1, .error 500 "Build failed")

/-! ## Retrieval handlers

Both are written in state-passing style over read primitives, so that the
frame property (queries never modify the store) is a statement about the
handlers rather than about a pure type signature. Each primitive models a
read-only filesystem call and therefore returns the store unchanged. -/

/-- `open(config_file)` + `json.load` + `os.path.getctime(config_file)`,
`none` when `os.path.isfile(config_file)` is false. -/
def fs_read_config (st : Store) (h : String) : Store × Option (BuildConfig × Nat) :=
  (st, configOf st h)

/-- `os.path.getsize(firmware_file)`: `none` models the `FileNotFoundError`
it raises when the binary is absent. -/
def fs_stat_binary (st : Store) (h : String) : Store × Option Nat :=
  (st, (binaryOf st h).map List.length)

/-- `open(firmware_file, 'rb').read()`. -/
def fs_read_binary (st : Store) (h : String) : Store × Option (List Nat) :=
  (st, binaryOf st h)

/-- `os.path.isfile('./build/<hash>/ledmacher.bin')`. -/
def fs_isfile_binary (st : Store) (h : String) : Store × Bool :=
  (st, (binaryOf st h).isSome)

/-- The JSON response of `GET /firmware/<hash>`. -/
structure FirmwareInfo where
  build_hash : String
  date : Nat
  size : Nat
  checksum : String
  config : BuildConfig
deriving DecidableEq

/-- Outcome of `get_firmware_info`: the JSON dict, the explicit
`abort(404, ...)`, or an unhandled Python exception (`crash`). -/
inductive InfoResult
  | ok (info : FirmwareInfo)
  | notFound
  | crash
deriving DecidableEq

/-- `GET /firmware/<hash>`: checks `os.path.isfile(config_file)` (404 when
absent), then loads the config, stats the binary for its size and reads it
for its SHA-1 checksum — both of which raise when the binary is missing. -/
def get_firmware_info_st (st : Store) (firmware_hash : String) : Store × InfoResult :=
  match fs_read_config st firmware_hash with
  | (st1, none) => (st1, .notFound)
  | (st1, some (config_data, created)) =>
    match fs_stat_binary st1 firmware_hash with
    | (st2, none) => (st2, .crash)
    | (st2, some firmware_size) =>
      match fs_read_binary st2 firmware_hash with
      | (st3, none) => (st3, .crash)
      | (st3, some bytes) =>
          (st3, .ok { build_hash := firmware_hash, date := created,
                      size := firmware_size, checksum := sha1hex bytes,
                      config := config_data })

/-- Result component of `GET /firmware/<hash>`. -/
def get_firmware_info (st : Store) (firmware_hash : String) : InfoResult :=
  (get_firmware_info_st st firmware_hash).2

/-- Outcome of `download_firmware`: the streamed binary or `abort(404, ...)`. -/
inductive BinResult
  | ok (bytes : List Nat)
  | notFound
deriving DecidableEq

/-- `GET /firmware/<hash>/bin`: serves `ledmacher.bin` via `static_file`
whenever `os.path.isfile` finds it — the `config.json` metadata file is never
consulted. (`static_file` itself would 404 if the file vanished between the
check and the read; sequentially that branch is unreachable.) -/
def download_firmware_st (st : Store) (firmware_hash : String) : Store × BinResult :=
  match fs_isfile_binary st firmware_hash with
  | (st1, false) => (st1, .notFound)
  | (st1, true) =>
    match fs_read_binary st1 firmware_hash with
    | (st2, none) => (st2, .notFound)
    | (st2, some bytes) => (st2, .ok bytes)

/-- Result component of `GET /firmware/<hash>/bin`. -/
def download_firmware (st : Store) (firmware_hash : String) : BinResult :=
  (download_firmware_st st firmware_hash).2

/-! Scratch sanity checks of the handler model (concrete evaluations). -/

/-- A sample configuration (the spec's §8 scenario plus a second color). -/
def cfgA : BuildConfig :=
  { num_leds := 3, wait_color := 100, wait_gradient := 200, gradient_steps := 5,
    colors := [⟨255, 0, 0⟩, ⟨1, 20, 255⟩] }

example : render_config cfgA =
    "\n#define NUM_LEDS 3\n\n#define WAIT_COLOR_MS 100\n#define WAIT_GRADIENT_MS 200\n#define GRADIENT_STEPS 5\n\nstruct cRGB colors[] = \x7b\n    \x7b .r = 255, .g =   0, .b =   0 \x7d,\n    \x7b .r =   1, .g =  20, .b = 255 \x7d,\n\x7d;\n" := by
  decide

example : build_firmware [] cfgA "abc\n" 0 7 = ([], .ok "abc\n") := by decide

example :
    build_firmware [("abc", ⟨none, some [7]⟩)] cfgA "abc" 1 7 =
      ([("abc", ⟨some (cfgA, 7), some [7]⟩)], .error 500 "Build failed") := by decide

example : download_firmware [("d", ⟨none, some [9]⟩)] "d" = .ok [9] := by decide

example : get_firmware_info [("d", ⟨none, some [9]⟩)] "d" = .notFound := by decide

/-! ## Spec-side definitions

These follow the specification's words, to be compared with the definitions
embedded from the source. -/

/-- The color-array block as the spec describes it: a header, one entry per
submitted color in submission order, and a closing line. -/
def entriesOf : List Color → String
  | [] => ""
  | c :: cs => colorEntry c ++ entriesOf cs

/-- The color-array initializer block of the spec's fixed textual layout. -/
def colorBlock (cfg : BuildConfig) : String :=
  "struct cRGB colors[] = \x7b\n" ++ entriesOf cfg.colors ++ "\x7d;\n"

/-- Python `c.isspace()` for the characters `str.strip()` removes. -/
def isPySpace (c : Char) : Bool :=
  c == ' ' || c == '\t' || c == '\n' || c == '\x0b' || c == '\x0c' || c == '\r'

/-- Modelled from the spec: the trimming of incidental leading and trailing
whitespace (`str.strip()`) that §4.1 says is applied to the candidate
identifier. The source of `build_firmware` contains no such call. -/
def pyStrip (s : String) : String :=
  String.mk (((s.data.dropWhile isPySpace).reverse.dropWhile isPySpace).reverse)

example : pyStrip " abc \n" = "abc" := by decide

/-! ## Helper lemmas -/

theorem findDir_map_set (st : Store) (h : String) (cfg : BuildConfig) (now : Nat) :
    findDir (st.map fun p => if p.1 = h then (p.1, { p.2 with config := some (cfg, now) }) else p) h
      = (findDir st h).map fun d => { d with config := some (cfg, now) } := by
  induction st with
  | nil => rfl
  | cons p rest ih =>
    simp only [List.map_cons]
    by_cases hk : p.1 = h
    · rw [if_pos hk]
      simp [findDir, hk]
    · rw [if_neg hk]
      simp [findDir, Ne.symm hk, ih]

theorem writeMetadata_found (st : Store) (h : String) (cfg : BuildConfig) (now : Nat)
    (d : ArtifactDir) (hd : findDir st h = some d) :
    configOf (writeMetadata st h cfg now) h = some (cfg, now) ∧
    binaryOf (writeMetadata st h cfg now) h = d.binary := by
  have hi : isdir st h = true := by simp [isdir, hd]
  unfold writeMetadata
  simp only [hi, if_true]
  constructor
  · simp [configOf, findDir_map_set, hd]
  · simp [binaryOf, findDir_map_set, hd]

theorem writeMetadata_missing (st : Store) (h : String) (cfg : BuildConfig) (now : Nat)
    (hd : findDir st h = none) : writeMetadata st h cfg now = st := by
  have hi : isdir st h = false := by simp [isdir, hd]
  simp [writeMetadata, hi]

theorem get_firmware_info_eq_ok (st : Store) (h : String) (c : BuildConfig) (t : Nat)
    (bytes : List Nat) (hc : configOf st h = some (c, t)) (hb : binaryOf st h = some bytes) :
    get_firmware_info st h =
      .ok { build_hash := h, date := t, size := bytes.length,
            checksum := sha1hex bytes, config := c } := by
  simp [get_firmware_info, get_firmware_info_st, fs_read_config, fs_stat_binary,
        fs_read_binary, hc, hb]

theorem get_firmware_info_ok_inv (st : Store) (h : String) (info : FirmwareInfo)
    (hok : get_firmware_info st h = .ok info) :
    ∃ c t bytes, configOf st h = some (c, t) ∧ binaryOf st h = some bytes ∧
      info = { build_hash := h, date := t, size := bytes.length,
               checksum := sha1hex bytes, config := c } := by
  rcases hc : configOf st h with _ | ⟨c, t⟩
  · simp [get_firmware_info, get_firmware_info_st, fs_read_config, hc] at hok
  · rcases hb : binaryOf st h with _ | bytes
    · simp [get_firmware_info, get_firmware_info_st, fs_read_config, fs_stat_binary,
            fs_read_binary, hc, hb] at hok
    · refine ⟨c, t, bytes, rfl, rfl, ?_⟩
      have := get_firmware_info_eq_ok st h c t bytes hc hb
      rw [this] at hok
      exact (InfoResult.ok.inj hok).symm

theorem download_firmware_ok_inv (st : Store) (h : String) (bytes : List Nat)
    (hok : download_firmware st h = .ok bytes) : binaryOf st h = some bytes := by
  rcases hb : binaryOf st h with _ | b
  · simp [download_firmware, download_firmware_st, fs_isfile_binary, fs_read_binary, hb] at hok
  · simp [download_firmware, download_firmware_st, fs_isfile_binary, fs_read_binary, hb] at hok
    rw [hok]

theorem toHex8_length (x : Nat) : (toHex8 x).length = 8 := rfl

theorem sha1hex_length (msg : List Nat) : (sha1hex msg).length = 40 := by
  unfold sha1hex
  rcases sha1 msg with ⟨a, b, c, d, e⟩
  simp [String.length_append, toHex8_length]

theorem foldl_colorEntry (l : List Color) (init : String) :
    l.foldl (fun acc c => acc ++ colorEntry c) init = init ++ entriesOf l := by
  induction l generalizing init with
  | nil => simp [entriesOf]
  | cons c cs ih => simp [entriesOf, ih, String.append_assoc]

/-! ## Claims -/

/-- C1: for every valid `BuildConfig`, a successful build — the external
command exits with status 0 and emits a non-empty identifier, having created
the artifact directory with the binary in it — returns that non-empty
identifier to the client, and a subsequent `get_firmware_info` on the
identifier returns a config equal to the original submitted `BuildConfig`. -/
theorem C1_build_success_roundtrip (st : Store) (cfg : BuildConfig) (out : String)
    (now : Nat) (dir : ArtifactDir) (bytes : List Nat)
    (hout : out ≠ "") (hdir : findDir st out = some dir) (hbin : dir.binary = some bytes) :
    (build_firmware st cfg out 0 now).2 = .ok out ∧
    ∃ info, get_firmware_info (build_firmware st cfg out 0 now).1 out = .ok info ∧
      info.config = cfg ∧ info.build_hash = out := by
  have hb : build_firmware st cfg out 0 now = (writeMetadata st out cfg now, .ok out) := by
    simp [build_firmware, hout]
  obtain ⟨hcfg, hbin2⟩ := writeMetadata_found st out cfg now dir hdir
  rw [hb]
  refine ⟨rfl, ?_⟩
  exact ⟨_, get_firmware_info_eq_ok _ out cfg now bytes hcfg (by rw [hbin2, hbin]), rfl, rfl⟩

/-- Witness for C1: a store whose `abc` directory holds the binary
`[1, 2, 3]`, a build that printed `abc` and exited with 0. -/
theorem C1_witness :
    (build_firmware [("abc", (⟨none, some [1, 2, 3]⟩ : ArtifactDir))] cfgA "abc" 0 42).2 =
        .ok "abc" ∧
    ∃ info,
      get_firmware_info
          (build_firmware [("abc", (⟨none, some [1, 2, 3]⟩ : ArtifactDir))] cfgA "abc" 0 42).1
          "abc" = .ok info ∧ info.config = cfgA ∧ info.build_hash = "abc" :=
  C1_build_success_roundtrip _ cfgA "abc" 42 ⟨none, some [1, 2, 3]⟩ [1, 2, 3]
    (by decide) (by decide) rfl

/-- C2 counterexample: with the artifact directory already present, a build
whose external command exits with status 1 receives the 500 response, yet
the metadata file (`config.json`) has been written for that request — the
write happens before the return code is inspected. -/
theorem C2_counterexample :
    (build_firmware [("abc", (⟨none, some [7]⟩ : ArtifactDir))] cfgA "abc" 1 5).2 =
        .error 500 "Build failed" ∧
    configOf (build_firmware [("abc", (⟨none, some [7]⟩ : ArtifactDir))] cfgA "abc" 1 5).1
        "abc" = some (cfgA, 5) := by decide

/-- C2 (amended): on an empty identifier the handler responds 500 with the
store untouched; on a non-zero exit status with a non-empty identifier the
handler responds 500 but only after performing the metadata write, which
persists `config.json` whenever the artifact directory exists. -/
theorem C2_amended_error_state (st : Store) (cfg : BuildConfig) (out : String)
    (rc : Int) (now : Nat) (hrc : rc ≠ 0) :
    (∃ msg, (build_firmware st cfg out rc now).2 = .error 500 msg) ∧
    (build_firmware st cfg out rc now).1 =
      (if out = "" then st else writeMetadata st out cfg now) := by
  by_cases hout : out = "" <;> simp [build_firmware, hout, hrc]

/-- Witness for C2's amended theorem at a failed build with exit status 1. -/
theorem C2_amended_witness :
    (∃ msg, (build_firmware [] cfgA "x" 1 0).2 = .error 500 msg) ∧
    (build_firmware [] cfgA "x" 1 0).1 =
      (if "x" = "" then ([] : Store) else writeMetadata [] "x" cfgA 0) :=
  C2_amended_error_state [] cfgA "x" 1 0 (by decide)

/-- C3: whenever the external build command exits with a non-zero status, the
response is a 500 server error and never the identifier-carrying success
response, regardless of the string printed on standard output. -/
theorem C3_nonzero_exit_server_error (st : Store) (cfg : BuildConfig) (out : String)
    (rc : Int) (now : Nat) (hrc : rc ≠ 0) :
    (∃ msg, (build_firmware st cfg out rc now).2 = .error 500 msg) ∧
    ∀ h, (build_firmware st cfg out rc now).2 ≠ .ok h := by
  by_cases hout : out = "" <;> simp [build_firmware, hout, hrc]

/-- Witness for C3: exit status 2 while a plausible hash was printed. -/
theorem C3_witness :
    (∃ msg, (build_firmware [] cfgA "printed-hash" 2 0).2 = .error 500 msg) ∧
    ∀ h, (build_firmware [] cfgA "printed-hash" 2 0).2 ≠ .ok h :=
  C3_nonzero_exit_server_error [] cfgA "printed-hash" 2 0 (by decide)

/-- C4 counterexample: a directory holding a binary but no metadata file —
`get_firmware_info` does answer not-found, but `download_firmware` serves the
binary instead of signalling not-found, refuting the claim that both do. -/
theorem C4_counterexample :
    get_firmware_info [("d", (⟨none, some [9]⟩ : ArtifactDir))] "d" = .notFound ∧
    download_firmware [("d", (⟨none, some [9]⟩ : ArtifactDir))] "d" = .ok [9] := by decide

/-- C4 (amended): when the metadata file is absent, `get_firmware_info`
signals not-found (even if a binary is present); `download_firmware` signals
not-found exactly when the binary file is absent — so identifiers never
built get not-found from both, but a binary without metadata is still
served. -/
theorem C4_amended_not_found (st : Store) (h : String) (hc : configOf st h = none) :
    get_firmware_info st h = .notFound ∧
    (binaryOf st h = none → download_firmware st h = .notFound) ∧
    ∀ bytes, binaryOf st h = some bytes → download_firmware st h = .ok bytes := by
  refine ⟨?_, ?_, ?_⟩
  · simp [get_firmware_info, get_firmware_info_st, fs_read_config, hc]
  · intro hb
    simp [download_firmware, download_firmware_st, fs_isfile_binary, fs_read_binary, hb]
  · intro bytes hb
    simp [download_firmware, download_firmware_st, fs_isfile_binary, fs_read_binary, hb]

/-- Witness for C4's amended theorem at a never-built identifier. -/
theorem C4_amended_witness :
    get_firmware_info [] "deadbeef" = .notFound ∧
    (binaryOf [] "deadbeef" = none → download_firmware [] "deadbeef" = .notFound) ∧
    ∀ bytes, binaryOf [] "deadbeef" = some bytes → download_firmware [] "deadbeef" = .ok bytes :=
  C4_amended_not_found [] "deadbeef" rfl

/-- C5 counterexample: stdout ` abc \n` (exit 0) is returned to the client
verbatim, whitespace included, although its trimmed form is `abc`; and the
whitespace-only stdout `\n` passes the emptiness check and is returned as the
identifier although its trimmed form is empty — the handler never trims. -/
theorem C5_counterexample :
    (build_firmware [] cfgA " abc \n" 0 0).2 = .ok " abc \n" ∧
    pyStrip " abc \n" = "abc" ∧ " abc \n" ≠ "abc" ∧
    (build_firmware [] cfgA "\n" 0 0).2 = .ok "\n" ∧ pyStrip "\n" = "" := by decide

/-- C5 (amended): the candidate identifier is the raw decoded standard
output, with no whitespace trimming anywhere: the raw string is what the
emptiness check compares against `""`, what names the artifact directory in
the metadata write, and what is returned to the client. -/
theorem C5_amended_raw_identifier (st : Store) (cfg : BuildConfig) (out : String) (now : Nat) :
    build_firmware st cfg out 0 now =
      if out = "" then (st, .error 500 "Yeah, this didn't work")
      else (writeMetadata st out cfg now, .ok out) := by
  by_cases hout : out = "" <;> simp [build_firmware, hout]

/-- C6: whenever `get_firmware_info` succeeds and `download_firmware`
returns bytes for the same identifier over the same store, the reported
checksum is the SHA-1 hex digest (40 characters) of exactly those bytes. -/
theorem C6_checksum_consistency (st : Store) (h : String) (info : FirmwareInfo)
    (bytes : List Nat) (h1 : get_firmware_info st h = .ok info)
    (h2 : download_firmware st h = .ok bytes) :
    info.checksum = sha1hex bytes ∧ info.checksum.length = 40 := by
  obtain ⟨c, t, b0, hc, hb, hinfo⟩ := get_firmware_info_ok_inv st h info h1
  have hb2 := download_firmware_ok_inv st h bytes h2
  rw [hb] at hb2
  have hbb : b0 = bytes := Option.some.inj hb2
  rw [hbb] at hinfo
  have hck : info.checksum = sha1hex bytes := by rw [hinfo]
  refine ⟨hck, ?_⟩
  rw [hck]
  exact sha1hex_length bytes

/-- Witness for C6: the artifact `w` stores the bytes of `"hi"`, whose SHA-1
is `c22b5f9178342609428d6f51b2c5af4c0bde6a42`. -/
theorem C6_witness :
    ({ build_hash := "w", date := 7, size := 2,
       checksum := "c22b5f9178342609428d6f51b2c5af4c0bde6a42", config := cfgA } :
        FirmwareInfo).checksum = sha1hex [104, 105] ∧
    ({ build_hash := "w", date := 7, size := 2,
       checksum := "c22b5f9178342609428d6f51b2c5af4c0bde6a42", config := cfgA } :
        FirmwareInfo).checksum.length = 40 :=
  C6_checksum_consistency [("w", ⟨some (cfgA, 7), some [104, 105]⟩)] "w" _ [104, 105]
    (by decide) (by decide)

/-- C7: when the artifact directory for the (non-empty) identifier does not
exist and the build otherwise succeeded, the metadata write is a no-op — the
request does not fail, the store is completely unchanged, and the identifier
is still returned to the client. -/
theorem C7_missing_dir_noop (st : Store) (cfg : BuildConfig) (out : String) (now : Nat)
    (hout : out ≠ "") (hdir : findDir st out = none) :
    build_firmware st cfg out 0 now = (st, .ok out) := by
  simp [build_firmware, hout, writeMetadata_missing st out cfg now hdir]

/-- Witness for C7: an empty store and a successful build emitting `abc`. -/
theorem C7_witness : build_firmware [] cfgA "abc" 0 3 = ([], .ok "abc") :=
  C7_missing_dir_noop [] cfgA "abc" 3 (by decide) rfl

/-- C8: the text rendered for the external build command is the `#define`
block of exactly the four scalar parameters followed by the color-array
initializer block with one entry per submitted color, in submission order. -/
theorem C8_rendered_layout (cfg : BuildConfig) :
    render_config cfg = defineBlock cfg ++ colorBlock cfg := by
  unfold render_config colorBlock
  rw [foldl_colorEntry]
  simp [String.append_assoc]

/-- C9: an artifact directory with a metadata file but no binary makes
`get_firmware_info` crash with an unhandled error (the `os.path.getsize`
call raises) rather than answer not-found — the spec's result-or-NotFound
dichotomy implicitly requires the binary to exist. -/
theorem C9_metadata_without_binary_crash (st : Store) (h : String) (dir : ArtifactDir)
    (c : BuildConfig) (t : Nat) (hdir : findDir st h = some dir)
    (hcfg : dir.config = some (c, t)) (hbin : dir.binary = none) :
    get_firmware_info st h = .crash ∧ get_firmware_info st h ≠ .notFound := by
  have hc : configOf st h = some (c, t) := by simp [configOf, hdir, hcfg]
  have hb : binaryOf st h = none := by simp [binaryOf, hdir, hbin]
  have hcr : get_firmware_info st h = .crash := by
    simp [get_firmware_info, get_firmware_info_st, fs_read_config, fs_stat_binary,
          fs_read_binary, hc, hb]
  refine ⟨hcr, ?_⟩
  rw [hcr]
  simp

/-- Witness for C9: directory `x` with a metadata file and no binary. -/
theorem C9_witness :
    get_firmware_info [("x", (⟨some (cfgA, 3), none⟩ : ArtifactDir))] "x" = .crash ∧
    get_firmware_info [("x", (⟨some (cfgA, 3), none⟩ : ArtifactDir))] "x" ≠ .notFound :=
  C9_metadata_without_binary_crash _ "x" ⟨some (cfgA, 3), none⟩ cfgA 3 (by decide) rfl rfl

/-- C10: the two retrieval handlers never modify the artifact store — the
store they thread through their filesystem reads comes back unchanged on
every identifier and every store, on success, not-found and crash alike. -/
theorem C10_retrieval_frame (st : Store) (h : String) :
    (get_firmware_info_st st h).1 = st ∧ (download_firmware_st st h).1 = st := by
  constructor
  · rcases hc : configOf st h with _ | ⟨c, t⟩
    · simp [get_firmware_info_st, fs_read_config, hc]
    · rcases hb : binaryOf st h with _ | bytes <;>
        simp [get_firmware_info_st, fs_read_config, fs_stat_binary, fs_read_binary, hc, hb]
  · rcases hb : binaryOf st h with _ | bytes <;>
      simp [download_firmware_st, fs_isfile_binary, fs_read_binary, hb]
